import Mathlib

/-!
IssueTicket: the ticket issuance pipeline of `frontend/src/Pages/IssueTicket.js`

A shallow embedding of the React component `IssueTicket`: its state
(`ticketData`, `previewImage`, `loading`, `error`), the wallet hook value, and
the three handlers `handleImageUpload`, `uploadMetadata` and `mintTicket`.

Handlers are state transformers that may raise; every call made to something
outside the component (the event, the browser, ethers, nft.storage, the router)
is appended to a log, so that "which collaborator was invoked, with what, in
which order" is a property of the log.
-/

namespace IssueTicket

/-! ## Data model -/

/-- The browser `File` selected in the file input: the fields the component reads. -/
structure File where
  name : String
  type : String
  size : Nat
  deriving DecidableEq, Repr

/-- The draft held in `ticketData` (lines 11–18); `image` is `null` or a `File`. -/
structure TicketData where
  name : String
  description : String
  image : Option File
  eventDate : String
  venue : String
  seatNumber : String
  deriving DecidableEq, Repr

/-- The value held in `loading`. It starts as the object
`{ upload: false, mint: false }` (line 20), and `mintTicket` overwrites it with
the primitives `true` and `false` (lines 78, 105). -/
inductive Loading where
  | flags (upload mint : Bool)
  | bool (b : Bool)
  deriving DecidableEq, Repr

/-- The value of `useWalletClient().data` when a wallet is connected. -/
structure WalletClient where
  address : String
  deriving DecidableEq, Repr

/-- The component: the four `useState` cells and the wallet hook value. -/
structure Component where
  ticketData : TicketData
  previewImage : Option String
  loading : Loading
  error : Option String
  walletClient : Option WalletClient
  deriving DecidableEq, Repr

/-- The state of a fresh mount (lines 11–21). -/
def Component.initial (walletClient : Option WalletClient) : Component :=
  { ticketData :=
      { name := "", description := "", image := none, eventDate := "", venue := "",
        seatNumber := "" }
    previewImage := none
    loading := .flags false false
    error := none
    walletClient := walletClient }

/-- One entry of the `attributes` array of the stored record. -/
structure Attribute where
  trait_type : String
  value : String
  deriving DecidableEq, Repr

/-- The `properties` object of the stored record. -/
structure Properties where
  ticket_type : String
  deriving DecidableEq, Repr

/-- The record handed to `client.store` (lines 53–65). -/
structure Metadata where
  name : String
  description : String
  image : File
  attributes : List Attribute
  properties : Properties
  deriving DecidableEq, Repr

/-- The signer returned by `provider.getSigner()`. -/
structure Signer where
  id : Nat
  deriving DecidableEq, Repr

/-- An `ethers.Contract` instance: what its constructor was given. -/
structure ContractHandle where
  address : String
  abi : String
  signer : Signer
  deriving DecidableEq, Repr

/-- The transaction response returned by `contract.mint`. -/
structure Tx where
  hash : String
  deriving DecidableEq, Repr

/-! ## Calls leaving the component -/

/-- A call made by a handler to something outside the component. -/
inductive Call where
  | preventDefault
  | createObjectURL (file : File)
  | newWeb3Provider
  | getSigner
  | newContract (address abi : String) (signer : Signer)
  | owner (contract : ContractHandle)
  | newNFTStorage
  | store (metadata : Metadata)
  | mint (contract : ContractHandle) (recipient tokenURI : String)
  | wait (tx : Tx)
  | alert (message : String)
  | navigate (path : String)
  | consoleError (message : String)
  deriving DecidableEq, Repr

/-- The call is the contract's issuer query `contract.owner()`. -/
def Call.isOwner : Call → Bool
  | .owner _ => true
  | _ => false

/-- The call is the storage upload `client.store(...)`. -/
def Call.isStore : Call → Bool
  | .store _ => true
  | _ => false

/-- The call is the contract's `mint`. -/
def Call.isMint : Call → Bool
  | .mint _ _ _ => true
  | _ => false

/-- The call is a router navigation. -/
def Call.isNavigate : Call → Bool
  | .navigate _ => true
  | _ => false

/-- The call reaches the network: issuer query, storage upload, mint, or the
confirmation wait. -/
def Call.isNetwork : Call → Bool
  | .owner _ => true
  | .store _ => true
  | .mint _ _ _ => true
  | .wait _ => true
  | _ => false

/-- What the collaborators answer. An `error` is the `message` of the raised
`Error`. -/
structure Env where
  createObjectURL : File → String
  web3Provider : Except String Unit
  getSigner : Except String Signer
  owner : ContractHandle → Except String String
  store : Metadata → Except String String
  mint : ContractHandle → String → String → Except String Tx
  wait : Tx → Except String Unit

/-! ## Handlers as state transformers -/

/-- The component together with the log of calls made so far. -/
structure World where
  component : Component
  calls : List Call
  deriving DecidableEq, Repr

/-- A handler body: from a world, a value or a raised error message, and the
world after it. State changes made before a raise are kept. -/
def Js (α : Type) : Type := World → Except String α × World

/-- Sequencing: a raise in the first part skips the second. -/
def Js.bind {α β : Type} (m : Js α) (f : α → Js β) : Js β := fun w =>
  match m w with
  | (.ok a, w1) => f a w1
  | (.error e, w1) => (.error e, w1)

instance : Monad Js where
  pure a := fun w => (.ok a, w)
  bind := Js.bind

/-- The statement `throw new Error(message)`. -/
def raise {α : Type} (message : String) : Js α := fun w => (.error message, w)

/-- A call to a collaborator: logged, then its answer is the result. -/
def call {α : Type} (c : Call) (answer : Except String α) : Js α := fun w =>
  (answer, { w with calls := w.calls ++ [c] })

/-- The setter `setError`. -/
def setError (e : Option String) : Js Unit := fun w =>
  (.ok (), { w with component := { w.component with error := e } })

/-- The setter `setLoading`. -/
def setLoading (l : Loading) : Js Unit := fun w =>
  (.ok (), { w with component := { w.component with loading := l } })

/-- The setter `setPreviewImage`. -/
def setPreviewImage (p : Option String) : Js Unit := fun w =>
  (.ok (), { w with component := { w.component with previewImage := p } })

/-- The setter `setTicketData`, in its updater form `setTicketData(prev => ...)`. -/
def setTicketData (update : TicketData → TicketData) : Js Unit := fun w =>
  (.ok (), { w with component := { w.component with ticketData := update w.component.ticketData } })

/-- The statement `try { body } catch (err) { handler(err.message) } finally { fin }`. -/
def tryCatchFinally (body : Js Unit) (handler : String → Js Unit) (fin : Js Unit) : Js Unit :=
  fun w =>
    match body w with
    | (.ok (), w1) => fin w1
    | (.error e, w1) =>
      match handler e w1 with
      | (.ok (), w2) => fin w2
      | (.error e2, w2) =>
        match fin w2 with
        | (.ok (), w3) => (.error e2, w3)
        | (.error e3, w3) => (.error e3, w3)

/-- The method `String.prototype.startsWith`. -/
def startsWith (s pre : String) : Bool := pre.data.isPrefixOf s.data

/-- The method `String.prototype.toLowerCase` on strings whose cased letters are
ASCII, as in hexadecimal addresses: only `A`–`Z` are folded. -/
def toLowerCase (s : String) : String := String.mk (s.data.map Char.toLower)

/-- The size limit `10 * 1024 * 1024` of line 38. -/
def maxImageSize : Nat := 10 * 1024 * 1024

/-- The handler `handleImageUpload` (lines 31–46); `file` is `e.target.files[0]`. -/
def handleImageUpload (env : Env) (file : Option File) : Js Unit :=
  match file with
  | none => pure ()
  | some file =>
    if !startsWith file.type "image/" then
      setError (some "Please upload an image file")
    else if file.size > maxImageSize then
      setError (some "Image size must be less than 10MB")
    else do
      setTicketData (fun prev => { prev with image := some file })
      let url ← call (.createObjectURL file) (.ok (env.createObjectURL file))
      setPreviewImage (some url)
      setError none

/-- The message of line 49. -/
def missingImageMessage : String := "Please upload an image for the ticket"

/-- The message of line 73. -/
def walletNotConnectedMessage : String := "Please connect your wallet first"

/-- The message of line 91. -/
def notAuthorizedMessage : String := "Only contract owner can mint tickets"

/-- The record literal of lines 53–65, for a draft whose image is `image`. The
seat is `ticketData.seatNumber || "General Admission"`: the empty string is
falsy. -/
def metadataOf (ticketData : TicketData) (image : File) : Metadata :=
  { name := ticketData.name
    description := ticketData.description
    image := image
    attributes :=
      [ { trait_type := "Event Date", value := ticketData.eventDate },
        { trait_type := "Venue", value := ticketData.venue },
        { trait_type := "Seat",
          value := if ticketData.seatNumber = "" then "General Admission"
                   else ticketData.seatNumber } ]
    properties := { ticket_type := "Event Admission" } }

/-- The function `uploadMetadata` (lines 48–68), closed over the render's
`ticketData`; its value is `metadata.url`. -/
def uploadMetadata (env : Env) (ticketData : TicketData) : Js String :=
  match ticketData.image with
  | none => raise missingImageMessage
  | some image => do
    call .newNFTStorage (.ok ())
    call (.store (metadataOf ticketData image)) (env.store (metadataOf ticketData image))

/-- A `const` binding of a block. From block entry until its own initialiser has
been evaluated it is uninitialised. -/
inductive Binding (α : Type) where
  | uninitialised
  | initialised (value : α)

/-- The message of the `ReferenceError` raised by a read of the uninitialised
binding `contract`. -/
def referenceErrorMessage : String := "Cannot access 'contract' before initialization"

/-- A read of a block binding: an uninitialised one raises a `ReferenceError`. -/
def Binding.read {α : Type} : Binding α → Js α
  | .uninitialised => raise referenceErrorMessage
  | .initialised value => pure value

/-- The declaration of lines 83–87,
`const contract = new ethers.Contract(contract.address, contract.abi, signer)`.
Inside the `try` block the name `contract` is the block's own `const`, which
shadows the import of line 6, so both `contract.address` and `contract.abi` read
that binding, and they are evaluated before it is initialised. -/
def declareContract (signer : Signer) : Js ContractHandle := do
  let contract : Binding ContractHandle := .uninitialised
  let address := (← contract.read).address
  let abi := (← contract.read).abi
  call (.newContract address abi signer) (.ok { address := address, abi := abi, signer := signer })

/-- The comparison of lines 90–92. -/
def checkOwner (walletClient : WalletClient) (contractOwner : String) : Js Unit :=
  if toLowerCase walletClient.address != toLowerCase contractOwner then
    raise notAuthorizedMessage
  else
    pure ()

/-- The statements of the `try` block that follow the declaration of `contract`
(lines 89–100). -/
def mintWithContract (env : Env) (ticketData : TicketData) (walletClient : WalletClient)
    (contract : ContractHandle) : Js Unit := do
  let contractOwner ← call (.owner contract) (env.owner contract)
  checkOwner walletClient contractOwner
  let tokenURI ← uploadMetadata env ticketData
  let tx ← call (.mint contract walletClient.address tokenURI)
    (env.mint contract walletClient.address tokenURI)
  call (.wait tx) (env.wait tx)
  call (.alert ("Ticket minted successfully! Transaction hash: " ++ tx.hash)) (.ok ())
  call (.navigate "/dashboard") (.ok ())

/-- The body of the `try` block (lines 78–100). -/
def mintTicketTry (env : Env) (ticketData : TicketData) (walletClient : WalletClient) :
    Js Unit := do
  setLoading (.bool true)
  setError (some "")
  call .newWeb3Provider env.web3Provider
  let signer ← call .getSigner env.getSigner
  let contract ← declareContract signer
  mintWithContract env ticketData walletClient contract

/-- The handler `mintTicket` (lines 70–107), closed over the render's `ticketData`
and `walletClient`. -/
def mintTicket (env : Env) : Js Unit := fun w =>
  (do
    call .preventDefault (.ok ())
    match w.component.walletClient with
    | none => setError (some walletNotConnectedMessage)
    | some walletClient =>
      tryCatchFinally (mintTicketTry env w.component.ticketData walletClient)
        (fun message => do
          call (.consoleError message) (.ok ())
          setError (some message))
        (setLoading (.bool false))) w

/-- The truthiness of `loading.upload`; on a boolean primitive the property is
`undefined`. -/
def Loading.upload : Loading → Bool
  | .flags upload _ => upload
  | .bool _ => false

/-- The truthiness of `loading.mint`; on a boolean primitive the property is
`undefined`. -/
def Loading.mint : Loading → Bool
  | .flags _ mint => mint
  | .bool _ => false

/-- The `disabled` attribute of the submit button (line 191). -/
def submitDisabled (c : Component) : Bool := c.loading.upload || c.loading.mint

/-- The four inputs marked `required` (lines 163, 168, 174, 184) all have a value. -/
def requiredFilled (ticketData : TicketData) : Bool :=
  ticketData.name != "" && ticketData.description != "" && ticketData.eventDate != "" &&
    ticketData.venue != ""

/-- A click on the submit button of the form (lines 127, 191): nothing happens when
the button is disabled or a `required` input is empty; otherwise the form's
`onSubmit`, which is `mintTicket`, runs. -/
def clickSubmit (env : Env) : Js Unit := fun w =>
  if submitDisabled w.component then (.ok (), w)
  else if requiredFilled w.component.ticketData then mintTicket env w
  else (.ok (), w)

/-- The world in which a handler starts: the component, and an empty log. -/
def World.start (c : Component) : World := { component := c, calls := [] }

/-! ### Sample inputs -/

/-- A 2 KiB PNG. -/
def samplePng : File := { name := "ticket.png", type := "image/png", size := 2048 }

/-- A filled-in draft with an image. -/
def sampleDraft : TicketData :=
  { name := "VIP Concert Ticket"
    description := "Access to VIP area"
    image := some samplePng
    eventDate := "2025-01-31"
    venue := "Madison Square Garden"
    seatNumber := "" }

/-- The contract handle the declaration of lines 83–87 is written to build. -/
def sampleContract : ContractHandle :=
  { address := "0xc0ffee", abi := "abi", signer := { id := 0 } }

/-- Collaborators that all succeed; the contract's issuer is `owner`. -/
def sampleEnv (owner : String) : Env :=
  { createObjectURL := fun f => "blob:" ++ f.name
    web3Provider := .ok ()
    getSigner := .ok { id := 0 }
    owner := fun _ => .ok owner
    store := fun _ => .ok "ipfs://metadata.json"
    mint := fun _ _ _ => .ok { hash := "0x7a" }
    wait := fun _ => .ok () }

/-- Collaborators of which only the storage upload fails. -/
def failingStoreEnv (owner : String) : Env :=
  { sampleEnv owner with store := fun _ => .error "upload failed" }

/-- A component with the sample draft and the wallet `address` connected. -/
def sampleComponent (address : String) : Component :=
  { Component.initial (some { address := address }) with ticketData := sampleDraft }

/-! ## Theorems -/

/-- The declaration of `contract` raises the `ReferenceError` from every world, for
every signer, and changes nothing. -/
theorem declareContract_raises (signer : Signer) (w : World) :
    declareContract signer w = (.error referenceErrorMessage, w) := rfl

/-- A run of `mintTicket` with a wallet connected: it returns normally, the log
grows by `preventDefault`, the provider construction, possibly `getSigner`, and
the `console.error` of the catch branch; the error cell holds the raised message
and `loading` is the primitive `false`. -/
theorem mintTicket_connected (env : Env) (w : World) (walletClient : WalletClient)
    (h : w.component.walletClient = some walletClient) :
    ∃ message setup,
      mintTicket env w =
        (.ok (),
          { component := { w.component with loading := .bool false, error := some message }
            calls := w.calls ++ .preventDefault :: (setup ++ [.consoleError message]) }) ∧
      (setup = [.newWeb3Provider] ∨ setup = [.newWeb3Provider, .getSigner]) ∧
      (env.web3Provider = .ok () → ∀ signer, env.getSigner = .ok signer →
        message = referenceErrorMessage) := by
  obtain ⟨createObjectURL, web3Provider, getSigner, owner, store, mint, wait⟩ := env
  obtain ⟨component, calls⟩ := w
  obtain ⟨ticketData, previewImage, loading, error, wallet⟩ := component
  simp only at h
  subst h
  cases web3Provider with
  | error e =>
    refine ⟨e, [.newWeb3Provider], ?_, Or.inl rfl, ?_⟩
    · simp [mintTicket, mintTicketTry, tryCatchFinally, call, setLoading, setError, bind,
        Js.bind, pure]
    · intro h1
      cases h1
  | ok u =>
    cases getSigner with
    | error e =>
      refine ⟨e, [.newWeb3Provider, .getSigner], ?_, Or.inr rfl, ?_⟩
      · simp [mintTicket, mintTicketTry, tryCatchFinally, call, setLoading, setError, bind,
          Js.bind, pure]
      · intro _ signer h2
        cases h2
    | ok signer =>
      refine ⟨referenceErrorMessage, [.newWeb3Provider, .getSigner], ?_, Or.inr rfl, ?_⟩
      · simp [mintTicket, mintTicketTry, tryCatchFinally, call, setLoading, setError, bind,
          Js.bind, pure, declareContract_raises]
      · intro _ _ _
        rfl

/-- Every call a run of `mintTicket` adds to the log is `preventDefault`, the
provider construction, `getSigner`, or the `console.error` of the catch branch. -/
theorem mintTicket_calls (env : Env) (c : Component) :
    ∀ x ∈ (mintTicket env (World.start c)).2.calls,
      x = .preventDefault ∨ x = .newWeb3Provider ∨ x = .getSigner ∨
        ∃ message, x = .consoleError message := by
  intro x hx
  cases hw : c.walletClient with
  | none =>
    have hrun : mintTicket env (World.start c) =
        (.ok (), { component := { c with error := some walletNotConnectedMessage }
                   calls := [.preventDefault] }) := by
      obtain ⟨ticketData, previewImage, loading, error, wallet⟩ := c
      simp only at hw
      subst hw
      rfl
    rw [hrun] at hx
    simp at hx
    exact Or.inl hx
  | some walletClient =>
    obtain ⟨message, setup, hrun, hsetup, -⟩ :=
      mintTicket_connected env (World.start c) walletClient hw
    rw [hrun] at hx
    rcases hsetup with hs | hs <;> subst hs <;> simp [World.start] at hx
    · rcases hx with hx | hx | hx
      · exact Or.inl hx
      · exact Or.inr (Or.inl hx)
      · exact Or.inr (Or.inr (Or.inr ⟨message, hx⟩))
    · rcases hx with hx | hx | hx | hx
      · exact Or.inl hx
      · exact Or.inr (Or.inl hx)
      · exact Or.inr (Or.inr (Or.inl hx))
      · exact Or.inr (Or.inr (Or.inr ⟨message, hx⟩))

/-- A run of `mintTicket` depends on the collaborators only through the provider
construction and `getSigner`: the answers of the issuer query, the storage upload,
the mint and the confirmation wait are never consulted. -/
theorem mintTicket_env_irrelevant (env env2 : Env) (w : World)
    (hp : env2.web3Provider = env.web3Provider) (hs : env2.getSigner = env.getSigner) :
    mintTicket env2 w = mintTicket env w := by
  obtain ⟨createObjectURL, web3Provider, getSigner, owner, store, mint, wait⟩ := env
  obtain ⟨createObjectURL2, web3Provider2, getSigner2, owner2, store2, mint2, wait2⟩ := env2
  simp only at hp hs
  subst hp hs
  obtain ⟨component, calls⟩ := w
  obtain ⟨ticketData, previewImage, loading, error, wallet⟩ := component
  cases wallet with
  | none => rfl
  | some walletClient =>
    cases web3Provider2 with
    | error e => rfl
    | ok u =>
      cases getSigner2 with
      | error e => rfl
      | ok signer => rfl

/-- The statements after the declaration of `contract`, for a wallet that is not the
issuer: the issuer query is made, the not-authorized error is raised, and nothing
else is called. -/
theorem mintWithContract_not_authorized (env : Env) (ticketData : TicketData)
    (walletClient : WalletClient) (contract : ContractHandle) (w : World) (contractOwner : String)
    (ho : env.owner contract = .ok contractOwner)
    (hne : toLowerCase walletClient.address ≠ toLowerCase contractOwner) :
    mintWithContract env ticketData walletClient contract w =
      (.error notAuthorizedMessage, { w with calls := w.calls ++ [.owner contract] }) := by
  simp [mintWithContract, checkOwner, call, raise, bind, Js.bind, ho, hne]

/-- The statements after the declaration of `contract`, for a wallet matching the
issuer and a store collaborator that fails: they raise the collaborator's error
after the upload and make no mint call. -/
theorem mintWithContract_upload_failure (env : Env) (ticketData : TicketData)
    (walletClient : WalletClient) (contract : ContractHandle) (w : World) (image : File)
    (contractOwner message : String)
    (hi : ticketData.image = some image)
    (ho : env.owner contract = .ok contractOwner)
    (heq : toLowerCase walletClient.address = toLowerCase contractOwner)
    (hs : env.store (metadataOf ticketData image) = .error message) :
    mintWithContract env ticketData walletClient contract w =
      (.error message,
        { w with
          calls := w.calls ++
            [.owner contract, .newNFTStorage, .store (metadataOf ticketData image)] }) := by
  simp [mintWithContract, checkOwner, uploadMetadata, call, bind, Js.bind, pure, hi, ho, heq,
    hs]

/-- The statements after the declaration of `contract`, for a wallet matching the
issuer and collaborators that all answer: one upload, one mint with the wallet
address and the returned locator, the confirmation wait, the alert and the
navigation. -/
theorem mintWithContract_all_answer (env : Env) (ticketData : TicketData)
    (walletClient : WalletClient) (contract : ContractHandle) (w : World) (image : File)
    (contractOwner tokenURI : String) (tx : Tx)
    (hi : ticketData.image = some image)
    (ho : env.owner contract = .ok contractOwner)
    (heq : toLowerCase walletClient.address = toLowerCase contractOwner)
    (hs : env.store (metadataOf ticketData image) = .ok tokenURI)
    (hm : env.mint contract walletClient.address tokenURI = .ok tx)
    (hwait : env.wait tx = .ok ()) :
    mintWithContract env ticketData walletClient contract w =
      (.ok (),
        { w with
          calls := w.calls ++
            [.owner contract, .newNFTStorage, .store (metadataOf ticketData image),
              .mint contract walletClient.address tokenURI, .wait tx,
              .alert ("Ticket minted successfully! Transaction hash: " ++ tx.hash),
              .navigate "/dashboard"] }) := by
  simp [mintWithContract, checkOwner, uploadMetadata, call, bind, Js.bind, pure, hi, ho, heq,
    hs, hm, hwait]

/-- Once `mintTicket` has set `loading` to the primitive `true` (line 78), the
submit button is not disabled: `loading.upload` and `loading.mint` are then
`undefined`. -/
theorem submitDisabled_while_loading (c : Component) :
    submitDisabled { c with loading := .bool true } = false := rfl

/-- A click on the submit button with a `required` input empty runs no handler. -/
theorem clickSubmit_required_empty (env : Env) (w : World)
    (h : requiredFilled w.component.ticketData = false) :
    clickSubmit env w = (.ok (), w) := by
  unfold clickSubmit
  split
  · rfl
  · simp [h]

/-- C1: after `handleImageUpload` on a selected file `f`, the draft's image is `f`
when `f.type` starts with `image/` and `f.size` is at most 10 MiB (the boundary
included), and is the image from before the call otherwise; in particular a file
larger than 10 MiB is rejected whatever its type. -/
theorem handleImageUpload_image (env : Env) (w : World) (f : File) :
    ((handleImageUpload env (some f) w).2.component.ticketData.image =
        if startsWith f.type "image/" = true ∧ f.size ≤ 10 * 1024 * 1024 then some f
        else w.component.ticketData.image) ∧
      (10 * 1024 * 1024 < f.size →
        (handleImageUpload env (some f) w).2.component.ticketData.image =
          w.component.ticketData.image) := by
  have key : (handleImageUpload env (some f) w).2.component.ticketData.image =
      if startsWith f.type "image/" = true ∧ f.size ≤ 10 * 1024 * 1024 then some f
      else w.component.ticketData.image := by
    unfold handleImageUpload
    by_cases ht : startsWith f.type "image/" = true
    · by_cases hs : f.size ≤ 10 * 1024 * 1024
      · have hs2 : ¬ f.size > maxImageSize := by
          unfold maxImageSize
          omega
        simp [ht, hs, hs2, setTicketData, call, setPreviewImage, setError, bind, Js.bind]
      · have hs2 : f.size > maxImageSize := by
          unfold maxImageSize
          omega
        simp [ht, hs, hs2, setError]
    · simp [ht, setError]
  refine ⟨key, fun hbig => ?_⟩
  rw [key, if_neg]
  intro hc
  omega

/-- The file of exactly 10 MiB is accepted and a PDF of one byte more is refused. -/
theorem handleImageUpload_image_witness :
    (handleImageUpload (sampleEnv "0xabc")
        (some { name := "a.png", type := "image/png", size := 10485760 })
        (World.start (sampleComponent "0xabc"))).2.component.ticketData.image =
      some { name := "a.png", type := "image/png", size := 10485760 } ∧
    (handleImageUpload (sampleEnv "0xabc")
        (some { name := "b.png", type := "image/png", size := 10485761 })
        (World.start (sampleComponent "0xabc"))).2.component.ticketData.image =
      some samplePng :=
  ⟨(handleImageUpload_image (sampleEnv "0xabc") (World.start (sampleComponent "0xabc"))
      { name := "a.png", type := "image/png", size := 10485760 }).1.trans (by decide),
   (handleImageUpload_image (sampleEnv "0xabc") (World.start (sampleComponent "0xabc"))
      { name := "b.png", type := "image/png", size := 10485761 }).2 (by decide)⟩

/-- C8: with no wallet connected, `mintTicket` sets the wallet-not-connected
message and returns; the only call it makes is `e.preventDefault()`, so there is
no issuer query, no upload and no mint, and the draft, the preview and `loading`
are as before. -/
theorem mintTicket_no_wallet (env : Env) (c : Component) (h : c.walletClient = none) :
    mintTicket env (World.start c) =
      (.ok (),
        { component := { c with error := some "Please connect your wallet first" }
          calls := [.preventDefault] }) := by
  obtain ⟨ticketData, previewImage, loading, error, wallet⟩ := c
  simp only at h
  subst h
  rfl

/-- A fresh mount without a wallet: the run of `mintTicket` there. -/
theorem mintTicket_no_wallet_witness :
    (Component.initial none).walletClient = none ∧
    mintTicket (sampleEnv "0xabc") (World.start (Component.initial none)) =
      (.ok (),
        { component := { Component.initial none with
            error := some "Please connect your wallet first" }
          calls := [.preventDefault] }) :=
  ⟨rfl, mintTicket_no_wallet (sampleEnv "0xabc") (Component.initial none) rfl⟩

/-- C9: for a draft with an image, `uploadMetadata` builds the storage client and
makes one `store` call; the stored record has the draft's name, description and
image, the properties `{ticket_type: "Event Admission"}` and the three attributes
Event Date, Venue, Seat in this order, the seat being the draft's `seatNumber`, or
"General Admission" when that is empty; the result is the collaborator's answer.
For a draft without an image it raises the missing-image error and calls
nothing. -/
theorem uploadMetadata_record (env : Env) (ticketData : TicketData) (w : World) :
    (∀ image, ticketData.image = some image →
      ∃ m : Metadata,
        uploadMetadata env ticketData w =
          (env.store m, { w with calls := w.calls ++ [.newNFTStorage, .store m] }) ∧
        m.name = ticketData.name ∧ m.description = ticketData.description ∧
        m.image = image ∧ m.properties = { ticket_type := "Event Admission" } ∧
        m.attributes =
          [ { trait_type := "Event Date", value := ticketData.eventDate },
            { trait_type := "Venue", value := ticketData.venue },
            { trait_type := "Seat",
              value := if ticketData.seatNumber = "" then "General Admission"
                       else ticketData.seatNumber } ]) ∧
    (ticketData.image = none →
      uploadMetadata env ticketData w =
        (.error "Please upload an image for the ticket", w)) := by
  constructor
  · intro image h
    refine ⟨metadataOf ticketData image, ?_, rfl, rfl, rfl, rfl, rfl⟩
    simp [uploadMetadata, h, call, bind, Js.bind]
  · intro h
    simp [uploadMetadata, h, raise, missingImageMessage]

/-- The sample draft, whose seat is blank, is stored with the seat "General
Admission"; the empty draft of a fresh mount is refused. -/
theorem uploadMetadata_record_witness :
    (∃ m : Metadata,
      uploadMetadata (sampleEnv "0xabc") sampleDraft (World.start (sampleComponent "0xabc")) =
        ((sampleEnv "0xabc").store m,
          { World.start (sampleComponent "0xabc") with
            calls := (World.start (sampleComponent "0xabc")).calls ++
              [.newNFTStorage, .store m] }) ∧
      m.name = sampleDraft.name ∧ m.description = sampleDraft.description ∧
      m.image = samplePng ∧ m.properties = { ticket_type := "Event Admission" } ∧
      m.attributes =
        [ { trait_type := "Event Date", value := sampleDraft.eventDate },
          { trait_type := "Venue", value := sampleDraft.venue },
          { trait_type := "Seat",
            value := if sampleDraft.seatNumber = "" then "General Admission"
                     else sampleDraft.seatNumber } ]) ∧
    uploadMetadata (sampleEnv "0xabc") (Component.initial none).ticketData
        (World.start (Component.initial none)) =
      (.error "Please upload an image for the ticket", World.start (Component.initial none)) :=
  ⟨(uploadMetadata_record (sampleEnv "0xabc") sampleDraft
      (World.start (sampleComponent "0xabc"))).1 samplePng rfl,
   (uploadMetadata_record (sampleEnv "0xabc") (Component.initial none).ticketData
      (World.start (Component.initial none))).2 rfl⟩

/-- C10: with a wallet connected, every run of `mintTicket` raises inside the `try`
block no later than the declaration of `contract`, whose initialiser reads the
block's own uninitialised binding; so no issuer query, no upload, no mint and no
navigation is made, the run ends in the catch branch with the raised message in
the error cell, and `loading` is reset to `false`. When the provider and the signer
are obtained, the raised error is the `ReferenceError` of that declaration. -/
theorem mintTicket_always_raises (env : Env) (c : Component) (walletClient : WalletClient)
    (h : c.walletClient = some walletClient) :
    (∀ signer w, declareContract signer w = (.error referenceErrorMessage, w)) ∧
    (mintTicket env (World.start c)).1 = .ok () ∧
    (∀ x ∈ (mintTicket env (World.start c)).2.calls,
      x.isOwner = false ∧ x.isStore = false ∧ x.isMint = false ∧ x.isNavigate = false) ∧
    (∃ message,
      (mintTicket env (World.start c)).2.component.error = some message ∧
      (mintTicket env (World.start c)).2.calls.getLast? = some (.consoleError message)) ∧
    (mintTicket env (World.start c)).2.component.loading = .bool false ∧
    (mintTicket env (World.start c)).2.component.ticketData = c.ticketData ∧
    (env.web3Provider = .ok () → ∀ signer, env.getSigner = .ok signer →
      (mintTicket env (World.start c)).2.component.error = some referenceErrorMessage) := by
  obtain ⟨message, setup, hrun, hsetup, hmsg⟩ :=
    mintTicket_connected env (World.start c) walletClient h
  rw [hrun]
  refine ⟨fun _ _ => rfl, rfl, ?_, ⟨message, rfl, ?_⟩, rfl, rfl, ?_⟩
  · intro x hx
    have hx2 : x = .preventDefault ∨ x = .newWeb3Provider ∨ x = .getSigner ∨
        x = .consoleError message := by
      rcases hsetup with hs | hs <;> subst hs <;> simp [World.start] at hx <;> tauto
    rcases hx2 with hx2 | hx2 | hx2 | hx2 <;> subst hx2 <;> exact ⟨rfl, rfl, rfl, rfl⟩
  · rcases hsetup with hs | hs <;> subst hs <;> simp [World.start]
  · intro h1 signer h2
    rw [hmsg h1 signer h2]

/-- The sample component with a wallet connected and all collaborators answering:
the run ends with the `ReferenceError` message. -/
theorem mintTicket_always_raises_witness :
    (sampleComponent "0xabc").walletClient = some { address := "0xabc" } ∧
    (mintTicket (sampleEnv "0xabc") (World.start (sampleComponent "0xabc"))).2.component.error =
      some "Cannot access 'contract' before initialization" ∧
    (mintTicket (sampleEnv "0xabc") (World.start (sampleComponent "0xabc"))).2.component.loading =
      .bool false :=
  ⟨rfl,
   (mintTicket_always_raises (sampleEnv "0xabc") (sampleComponent "0xabc")
    { address := "0xabc" } rfl).2.2.2.2.2.2 rfl { id := 0 } rfl,
   (mintTicket_always_raises (sampleEnv "0xabc") (sampleComponent "0xabc")
    { address := "0xabc" } rfl).2.2.2.2.1⟩

/-- C4: the comparison of lines 90–92 passes exactly when the wallet address and the
contract's issuer are equal after lower-casing both, and raises the not-authorized
error exactly when they are not; it changes nothing. A wallet `0xABC…` matches the
issuer `0xabc…`. -/
theorem checkOwner_case_insensitive (walletAddress contractOwner : String) (w : World) :
    ((checkOwner { address := walletAddress } contractOwner w).1 = .ok () ↔
      toLowerCase walletAddress = toLowerCase contractOwner) ∧
    ((checkOwner { address := walletAddress } contractOwner w).1 =
        .error "Only contract owner can mint tickets" ↔
      toLowerCase walletAddress ≠ toLowerCase contractOwner) ∧
    (checkOwner { address := walletAddress } contractOwner w).2 = w ∧
    (checkOwner { address := "0xABCDEF0123456789abcdef0123456789ABCDEF01" }
        "0xabcdef0123456789ABCDEF0123456789abcdef01" w).1 = .ok () := by
  refine ⟨?_, ?_, ?_, ?_⟩
  · by_cases h : toLowerCase walletAddress = toLowerCase contractOwner <;>
      simp [checkOwner, h, raise, pure]
  · by_cases h : toLowerCase walletAddress = toLowerCase contractOwner <;>
      simp [checkOwner, h, raise, pure, notAuthorizedMessage]
  · by_cases h : toLowerCase walletAddress = toLowerCase contractOwner <;>
      simp [checkOwner, h, raise, pure]
  · have h : toLowerCase "0xABCDEF0123456789abcdef0123456789ABCDEF01" =
        toLowerCase "0xabcdef0123456789ABCDEF0123456789abcdef01" := by decide
    simp [checkOwner, h, pure]

/-- C3: in every component state, either the submit button is disabled or a run of
`mintTicket` makes no upload call and no mint call. -/
theorem second_submission_no_upload_no_mint (env : Env) (c : Component) :
    submitDisabled c = true ∨
      ∀ x ∈ (mintTicket env (World.start c)).2.calls, x.isStore = false ∧ x.isMint = false := by
  right
  intro x hx
  rcases mintTicket_calls env c x hx with h | h | h | ⟨message, h⟩ <;> subst h <;>
    exact ⟨rfl, rfl⟩

/-- C6: for a draft with a required text field empty, a run of `mintTicket` makes no
network call (no issuer query, no storage upload, no mint, no confirmation wait)
and does not build the storage client of `uploadMetadata`; the run is the same
whatever those collaborators would answer; and a click on the form's submit button
runs no handler at all. -/
theorem mintTicket_empty_required_no_network (env : Env) (c : Component)
    (h : c.ticketData.name = "" ∨ c.ticketData.description = "" ∨
      c.ticketData.eventDate = "" ∨ c.ticketData.venue = "") :
    (∀ x ∈ (mintTicket env (World.start c)).2.calls,
      x.isNetwork = false ∧ x ≠ .newNFTStorage) ∧
    (∀ env2 : Env, env2.web3Provider = env.web3Provider → env2.getSigner = env.getSigner →
      mintTicket env2 (World.start c) = mintTicket env (World.start c)) ∧
    clickSubmit env (World.start c) = (.ok (), World.start c) := by
  refine ⟨?_, fun env2 hp hs => mintTicket_env_irrelevant env env2 (World.start c) hp hs, ?_⟩
  · intro x hx
    rcases mintTicket_calls env c x hx with h | h | h | ⟨message, h⟩ <;> subst h <;>
      exact ⟨rfl, by simp⟩
  · apply clickSubmit_required_empty
    rcases h with h | h | h | h <;> simp [requiredFilled, World.start, h]

/-- A fresh mount with a wallet connected, all four required fields empty. -/
theorem mintTicket_empty_required_no_network_witness :
    (Component.initial (some { address := "0xabc" })).ticketData.name = "" ∧
    (∀ x ∈ (mintTicket (sampleEnv "0xabc")
        (World.start (Component.initial (some { address := "0xabc" })))).2.calls,
      x.isNetwork = false ∧ x ≠ .newNFTStorage) ∧
    clickSubmit (sampleEnv "0xabc")
        (World.start (Component.initial (some { address := "0xabc" }))) =
      (.ok (), World.start (Component.initial (some { address := "0xabc" }))) :=
  ⟨rfl,
   (mintTicket_empty_required_no_network (sampleEnv "0xabc")
    (Component.initial (some { address := "0xabc" })) (Or.inl rfl)).1,
   (mintTicket_empty_required_no_network (sampleEnv "0xabc")
    (Component.initial (some { address := "0xabc" })) (Or.inl rfl)).2.2⟩

/-- C2, evaluated: the wallet `0xabc` is connected, the contract's issuer is `0xdef`
and every collaborator answers. The run makes no issuer query and no mint call, and
the error cell holds the `ReferenceError` message of the declaration of `contract`,
not the not-authorized message. -/
theorem mintTicket_wrong_wallet :
    toLowerCase "0xabc" ≠ toLowerCase "0xdef" ∧
    mintTicket (sampleEnv "0xdef") (World.start (sampleComponent "0xabc")) =
      (.ok (),
        { component := { sampleComponent "0xabc" with
            loading := .bool false
            error := some "Cannot access 'contract' before initialization" }
          calls := [.preventDefault, .newWeb3Provider, .getSigner,
            .consoleError "Cannot access 'contract' before initialization"] }) ∧
    (mintTicket (sampleEnv "0xdef") (World.start (sampleComponent "0xabc"))).2.component.error ≠
      some "Only contract owner can mint tickets" :=
  ⟨by decide, rfl, by decide⟩

/-- C5, evaluated: the wallet `0xABC` is the issuer `0xabc`, the draft has an image
and the store collaborator fails with "upload failed". The run of `mintTicket`
stops at the declaration of `contract`: it makes no issuer query, no upload and no
mint call, and the error cell holds the `ReferenceError` message, not the upload
error. -/
theorem upload_failure_not_surfaced :
    (failingStoreEnv "0xabc").store (metadataOf sampleDraft samplePng) =
      .error "upload failed" ∧
    mintTicket (failingStoreEnv "0xabc") (World.start (sampleComponent "0xABC")) =
      (.ok (),
        { component := { sampleComponent "0xABC" with
            loading := .bool false
            error := some "Cannot access 'contract' before initialization" }
          calls := [.preventDefault, .newWeb3Provider, .getSigner,
            .consoleError "Cannot access 'contract' before initialization"] }) ∧
    (mintTicket (failingStoreEnv "0xabc")
        (World.start (sampleComponent "0xABC"))).2.component.error ≠ some "upload failed" ∧
    (mintTicket (failingStoreEnv "0xabc")
        (World.start (sampleComponent "0xABC"))).2.calls.countP Call.isStore = 0 :=
  ⟨rfl, rfl, by decide, by decide⟩

/-- C7, evaluated: the sample draft is complete, the wallet `0xabc` is the issuer
`0xABC` and every collaborator answers. The run of `mintTicket` stops at the
declaration of `contract`: it makes no upload call, no mint call and no navigation,
and ends with the `ReferenceError` message in the error cell. -/
theorem matching_wallet_no_upload :
    requiredFilled sampleDraft = true ∧
    sampleDraft.image = some samplePng ∧
    toLowerCase "0xabc" = toLowerCase "0xABC" ∧
    mintTicket (sampleEnv "0xABC") (World.start (sampleComponent "0xabc")) =
      (.ok (),
        { component := { sampleComponent "0xabc" with
            loading := .bool false
            error := some "Cannot access 'contract' before initialization" }
          calls := [.preventDefault, .newWeb3Provider, .getSigner,
            .consoleError "Cannot access 'contract' before initialization"] }) ∧
    (mintTicket (sampleEnv "0xABC")
        (World.start (sampleComponent "0xabc"))).2.calls.countP Call.isStore = 0 ∧
    (mintTicket (sampleEnv "0xABC")
        (World.start (sampleComponent "0xabc"))).2.calls.countP Call.isMint = 0 ∧
    (mintTicket (sampleEnv "0xABC")
        (World.start (sampleComponent "0xabc"))).2.calls.countP Call.isNavigate = 0 :=
  ⟨by decide, rfl, by decide, rfl, by decide, by decide, by decide⟩

end IssueTicket
